import Mathlib

set_option autoImplicit false

/-!
Shallow embedding of `nova/network/service.py`: the network-type registry,
the base network service, and the Flat/Vlan specializations.  The ledger
(`nova.db`) and the driver (`nova.network.linux_net`) are external
collaborators; their operations are modelled from the spec's collaborator
contracts (§6), and every ledger write and driver command is recorded in an
event trace so that ordering properties can be stated.
-/

namespace Nova

/-- Association-list lookup by key; the first matching entry wins. -/
def assocFind {α β : Type} [DecidableEq α] (a : α) : List (α × β) → Option β
  | [] => none
  | p :: rest => if p.1 = a then some p.2 else assocFind a rest

/-- Association-list update: applies `f` to the value of every entry whose key is `a`. -/
def assocUpdate {α β : Type} [DecidableEq α] (a : α) (f : β → β) (l : List (α × β)) :
    List (α × β) :=
  l.map (fun p => if p.1 = a then (p.1, f p.2) else p)

/-- Configuration flags declared at the top of `nova/network/service.py`
(plus `node_name`, declared by the service layer and read here). -/
structure Flags where
  network_type : String
  flat_network_bridge : String
  flat_network_network : String
  flat_network_netmask : String
  flat_network_gateway : String
  flat_network_broadcast : String
  flat_network_dns : String
  node_name : String
deriving Repr, DecidableEq

/-- Row of the ledger's network table: the fields `service.py` reads or writes. -/
structure NetworkRec where
  id : Nat
  kind : String
  host : Option String
  injected : Bool
  vlan : Nat
  bridge : String
  network_str : String
  netmask : String
  gateway : String
  broadcast : String
  dns : String
  vpn_public_ip_str : String
  vpn_public_port : Nat
  vpn_private_ip_str : String
deriving Repr, DecidableEq

/-- Row of the ledger's fixed-ip table, keyed by address. -/
structure FixedIpRec where
  network_id : Nat
  instance_id : Option Nat
  leased : Bool
  allocated : Bool
deriving Repr, DecidableEq

/-- Row of the ledger's floating-ip table, keyed by address. -/
structure FloatingIpRec where
  host : String
  project_id : String
  fixed_address : Option String
  allocated : Bool
deriving Repr, DecidableEq

/-- The field dict written by `FlatNetworkService._on_set_network_host`. -/
structure FlatNetUpdate where
  injected : Bool
  kind : String
  network_str : String
  netmask : String
  bridge : String
  gateway : String
  broadcast : String
  dns : String
deriving Repr, DecidableEq

/-- Commands of the network driver (`linux_net`), recorded rather than executed. -/
inductive DriverCmd where
  | ensure_vlan_bridge (vlan : Nat) (bridge : String)
  | ensure_vlan_forward (public_ip : String) (public_port : Nat) (private_ip : String)
  | bind_floating_ip (address : String)
  | unbind_floating_ip (address : String)
  | ensure_floating_forward (floating_address : String) (fixed_address : String)
  | remove_floating_forward (floating_address : String) (fixed_address : String)
deriving Repr, DecidableEq

/-- Ledger (db) writes, recorded so ledger-vs-driver ordering is observable. -/
inductive LedgerWrite where
  | fixed_ip_allocate_address (network_id : Nat) (address : String)
  | fixed_ip_instance_associate (address : String) (instance_id : Nat)
  | fixed_ip_deallocate (address : String)
  | fixed_ip_instance_disassociate (address : String)
  | fixed_ip_lease (address : String)
  | fixed_ip_release (address : String)
  | network_set_host (network_id : Nat) (host : String)
  | network_update (network_id : Nat) (net : FlatNetUpdate)
  | floating_ip_allocate_address (host : String) (project_id : String) (address : String)
  | floating_ip_fixed_ip_associate (floating_address : String) (fixed_address : String)
  | floating_ip_disassociate (floating_address : String)
  | floating_ip_deallocate (floating_address : String)
deriving Repr, DecidableEq

/-- One observable effect: a ledger write or a driver command. -/
inductive Event where
  | db (w : LedgerWrite)
  | driver (c : DriverCmd)
deriving Repr, DecidableEq

/-- Errors raised by the embedded operations (spec §7 taxonomy; `notFound`
models `exception.NotFound`, `ledgerFailure`/`driverFailure` model transient
collaborator failures). -/
inductive Err where
  | notFound
  | addressSpaceExhausted
  | addressAlreadyAllocated
  | addressNotAllocated
  | driverFailure
  | ledgerFailure
deriving Repr, DecidableEq

/-- The world state: configuration, the ledger's tables, the trace of issued
effects, and the environment oracles saying which driver commands and
host-assignment ledger updates succeed. -/
structure St where
  flags : Flags
  networks : List NetworkRec
  projects : List (String × Nat)
  fixed_ips : List (String × FixedIpRec)
  floating_ips : List (String × FloatingIpRec)
  vpn_instances : List Nat
  vpn_addresses : List (Nat × String)
  trace : List Event
  driver_ok : DriverCmd → Bool
  set_host_ok : Bool

/-- Appends one event to the trace. -/
def logEvent (st : St) (e : Event) : St :=
  { st with trace := st.trace ++ [e] }

/-- Modelled from the spec: ledger `GetNetworkByTenant` (`db.project_get_network`). -/
def project_get_network (st : St) (project_id : String) : Option NetworkRec :=
  match assocFind project_id st.projects with
  | some network_id => st.networks.find? (fun n => n.id == network_id)
  | none => none

/-- Modelled from the spec: ledger `GetNetworkByID` (`db.network_get`). -/
def network_get (st : St) (network_id : Nat) : Option NetworkRec :=
  st.networks.find? (fun n => n.id == network_id)

/-- Modelled from the spec: ledger `SetNetworkHost` (`db.network_set_host`) —
single atomic update marking `host` as owner of the network, returning the
assigned host; the `set_host_ok` oracle injects transient ledger failure. -/
def network_set_host (st : St) (network_id : Nat) (host : String) :
    Except Err String × St :=
  if st.set_host_ok then
    (.ok host,
     logEvent
       { st with networks := st.networks.map (fun n =>
           if n.id == network_id then { n with host := some host } else n) }
       (.db (.network_set_host network_id host)))
  else (.error .ledgerFailure, st)

/-- Modelled from the spec: ledger `UpdateNetwork(fields)` (`db.network_update`)
with the field dict built by the flat host-assignment hook. -/
def network_update (st : St) (network_id : Nat) (net : FlatNetUpdate) : St :=
  logEvent
    { st with networks := st.networks.map (fun n =>
        if n.id == network_id then
          { n with injected := net.injected, kind := net.kind,
                   network_str := net.network_str, netmask := net.netmask,
                   bridge := net.bridge, gateway := net.gateway,
                   broadcast := net.broadcast, dns := net.dns }
        else n) }
    (.db (.network_update network_id net))

/-- Entry is a free (unallocated) address of the given network. -/
def isFreeIn (network_id : Nat) (p : String × FixedIpRec) : Bool :=
  p.2.network_id == network_id && !p.2.allocated

/-- Modelled from the spec: ledger `AllocateFixedIPAddress(networkID) ->
address | ExhaustedError` (`db.fixed_ip_allocate_address`): hands out the next
available address of the network's pool, atomically marking it allocated. -/
def fixed_ip_allocate_address (st : St) (network_id : Nat) : Except Err String × St :=
  match st.fixed_ips.find? (isFreeIn network_id) with
  | none => (.error .addressSpaceExhausted, st)
  | some p =>
    (.ok p.1,
     logEvent
       { st with fixed_ips := assocUpdate p.1 (fun r => { r with allocated := true }) st.fixed_ips }
       (.db (.fixed_ip_allocate_address network_id p.1)))

/-- Modelled from the spec: ledger `AssociateFixedIPInstance`
(`db.fixed_ip_instance_associate`). -/
def fixed_ip_instance_associate (st : St) (address : String) (instance_id : Nat) : St :=
  logEvent
    { st with fixed_ips := assocUpdate address (fun r => { r with instance_id := some instance_id }) st.fixed_ips }
    (.db (.fixed_ip_instance_associate address instance_id))

/-- Modelled from the spec: ledger `DeallocateFixedIPAddress`
(`db.fixed_ip_deallocate`) — returns the address to the network's available
pool (clears the allocated flag), touching nothing else. -/
def fixed_ip_deallocate (st : St) (address : String) : St :=
  logEvent
    { st with fixed_ips := assocUpdate address (fun r => { r with allocated := false }) st.fixed_ips }
    (.db (.fixed_ip_deallocate address))

/-- Modelled from the spec: ledger `DisassociateFixedIPInstance`
(`db.fixed_ip_instance_disassociate`) — clears the instance association. -/
def fixed_ip_instance_disassociate (st : St) (address : String) : St :=
  logEvent
    { st with fixed_ips := assocUpdate address (fun r => { r with instance_id := none }) st.fixed_ips }
    (.db (.fixed_ip_instance_disassociate address))

/-- Modelled from the spec: ledger `SetFixedIPLeased` (`db.fixed_ip_lease`). -/
def fixed_ip_lease (st : St) (address : String) : St :=
  logEvent
    { st with fixed_ips := assocUpdate address (fun r => { r with leased := true }) st.fixed_ips }
    (.db (.fixed_ip_lease address))

/-- Modelled from the spec: ledger `ClearLeased` (`db.fixed_ip_release`). -/
def fixed_ip_release (st : St) (address : String) : St :=
  logEvent
    { st with fixed_ips := assocUpdate address (fun r => { r with leased := false }) st.fixed_ips }
    (.db (.fixed_ip_release address))

/-- Modelled from the spec: ledger `GetFixedIPByAddress` (`db.fixed_ip_get_by_address`). -/
def fixed_ip_get_by_address (st : St) (address : String) : Option FixedIpRec :=
  assocFind address st.fixed_ips

/-- Modelled from the spec: ledger `IsInstanceVPNEndpoint` (`db.instance_is_vpn`). -/
def instance_is_vpn (st : St) (instance_id : Nat) : Bool :=
  st.vpn_instances.contains instance_id

/-- Modelled from the spec: ledger `GetVPNAddressForNetwork`
(`db.network_get_vpn_ip_address`) — the network's reserved VPN address. -/
def network_get_vpn_ip_address (st : St) (network_id : Nat) : Option String :=
  assocFind network_id st.vpn_addresses

/-- Modelled from the spec: ledger `AllocateFloatingIPAddress(host, tenant) ->
address | ExhaustedError` (`db.floating_ip_allocate_address`). -/
def floating_ip_allocate_address (st : St) (host : String) (project_id : String) :
    Except Err String × St :=
  match st.floating_ips.find? (fun p => !p.2.allocated) with
  | none => (.error .addressSpaceExhausted, st)
  | some p =>
    (.ok p.1,
     logEvent
       { st with floating_ips := assocUpdate p.1 (fun r =>
           { r with allocated := true, host := host, project_id := project_id }) st.floating_ips }
       (.db (.floating_ip_allocate_address host project_id p.1)))

/-- Modelled from the spec: ledger `AssociateFloatingFixed`
(`db.floating_ip_fixed_ip_associate`). -/
def floating_ip_fixed_ip_associate (st : St) (floating_address fixed_address : String) : St :=
  logEvent
    { st with floating_ips := assocUpdate floating_address (fun r =>
        { r with fixed_address := some fixed_address }) st.floating_ips }
    (.db (.floating_ip_fixed_ip_associate floating_address fixed_address))

/-- Modelled from the spec: ledger `DisassociateFloating ->
previousFixedAddress | NotAllocatedError` (`db.floating_ip_disassociate`). -/
def floating_ip_disassociate (st : St) (floating_address : String) :
    Except Err String × St :=
  match assocFind floating_address st.floating_ips with
  | none => (.error .addressNotAllocated, st)
  | some r =>
    match r.fixed_address with
    | none => (.error .addressNotAllocated, st)
    | some fixed_address =>
      (.ok fixed_address,
       logEvent
         { st with floating_ips := assocUpdate floating_address (fun q =>
             { q with fixed_address := none }) st.floating_ips }
         (.db (.floating_ip_disassociate floating_address)))

/-- Modelled from the spec: ledger `DeallocateFloatingIPAddress`
(`db.floating_ip_deallocate`) — releases the address back to the pool; fails
with `AddressNotAllocated` on an address that is not allocated. -/
def floating_ip_deallocate (st : St) (floating_address : String) :
    Except Err Unit × St :=
  match assocFind floating_address st.floating_ips with
  | none => (.error .addressNotAllocated, st)
  | some r =>
    if r.allocated then
      (.ok (),
       logEvent
         { st with floating_ips := assocUpdate floating_address (fun q =>
             { q with allocated := false }) st.floating_ips }
         (.db (.floating_ip_deallocate floating_address)))
    else (.error .addressNotAllocated, st)

/-- Driver invocation: the issued command is recorded, then succeeds or fails
per the environment's `driver_ok` oracle; a failing command raises, leaving
ledger state as it was. -/
def driverCall (st : St) (c : DriverCmd) : Except Err Unit × St :=
  (if st.driver_ok c then .ok () else .error .driverFailure, logEvent st (.driver c))

/-- The concrete topology handler classes of `service.py`. -/
inductive NetworkClass where
  | FlatNetworkService
  | VlanNetworkService
deriving Repr, DecidableEq

/-- Python `type_to_class`: converts a network_type string into an actual
class; the empty string models a falsy (unset) identifier. -/
def type_to_class (flags : Flags) (network_type : String) : Except Err NetworkClass :=
  let network_type := if network_type = "" then flags.network_type else network_type
  if network_type = "flat" then .ok .FlatNetworkService
  else if network_type = "vlan" then .ok .VlanNetworkService
  else .error .notFound

namespace BaseNetworkService

/-- `BaseNetworkService.set_network_host`, with the subclass hook
`_on_set_network_host` passed explicitly (Python dynamic dispatch): ledger
`network_set_host` first, then the topology hook. -/
def set_network_host (hook : St → Nat → Except Err Unit × St) (st : St)
    (project_id : String) : Except Err String × St :=
  match project_get_network st project_id with
  | none => (.error .notFound, st)
  | some network_ref =>
    match network_set_host st network_ref.id st.flags.node_name with
    | (.error e, st1) => (.error e, st1)
    | (.ok host, st1) =>
      match hook st1 network_ref.id with
      | (.error e, st2) => (.error e, st2)
      | (.ok _, st2) => (.ok host, st2)

/-- `BaseNetworkService._on_set_network_host`: no-op in the base class. -/
def _on_set_network_host (st : St) (network_id : Nat) : Except Err Unit × St :=
  (.ok (), st)

/-- `BaseNetworkService.allocate_fixed_ip`: gets a fixed ip from the pool and
records the instance association. -/
def allocate_fixed_ip (st : St) (project_id : String) (instance_id : Nat) :
    Except Err String × St :=
  match project_get_network st project_id with
  | none => (.error .notFound, st)
  | some network_ref =>
    match fixed_ip_allocate_address st network_ref.id with
    | (.error e, st1) => (.error e, st1)
    | (.ok address, st1) => (.ok address, fixed_ip_instance_associate st1 address instance_id)

/-- `BaseNetworkService.deallocate_fixed_ip`: returns a fixed ip to the pool,
then clears the instance association. -/
def deallocate_fixed_ip (st : St) (address : String) : St :=
  fixed_ip_instance_disassociate (fixed_ip_deallocate st address) address

/-- `BaseNetworkService.allocate_floating_ip`: gets a floating ip from the pool. -/
def allocate_floating_ip (st : St) (project_id : String) : Except Err String × St :=
  floating_ip_allocate_address st st.flags.node_name project_id

/-- `BaseNetworkService.associate_floating_ip`: ledger association write, then
driver `bind_floating_ip`, then driver `ensure_floating_forward`. -/
def associate_floating_ip (st : St) (floating_address fixed_address : String) :
    Except Err Unit × St :=
  let st0 := floating_ip_fixed_ip_associate st floating_address fixed_address
  match driverCall st0 (.bind_floating_ip floating_address) with
  | (.error e, st1) => (.error e, st1)
  | (.ok _, st1) => driverCall st1 (.ensure_floating_forward floating_address fixed_address)

/-- `BaseNetworkService.disassociate_floating_ip`: ledger disassociate (which
yields the previously bound fixed address), then driver `unbind_floating_ip`,
then driver `remove_floating_forward`; the Python method returns `None`, which
the `Option String` payload records as `none`. -/
def disassociate_floating_ip (st : St) (floating_address : String) :
    Except Err (Option String) × St :=
  match floating_ip_disassociate st floating_address with
  | (.error e, st1) => (.error e, st1)
  | (.ok fixed_address, st1) =>
    match driverCall st1 (.unbind_floating_ip floating_address) with
    | (.error e, st2) => (.error e, st2)
    | (.ok _, st2) =>
      match driverCall st2 (.remove_floating_forward floating_address fixed_address) with
      | (.error e, st3) => (.error e, st3)
      | (.ok _, st3) => (.ok none, st3)

/-- `BaseNetworkService.deallocate_floating_ip`: returns a floating ip to the pool. -/
def deallocate_floating_ip (st : St) (floating_address : String) :
    Except Err Unit × St :=
  floating_ip_deallocate st floating_address

end BaseNetworkService

namespace FlatNetworkService

/-- `FlatNetworkService.setup_compute_network`: network is created manually (no-op). -/
def setup_compute_network (st : St) (network : NetworkRec) : Except Err Unit × St :=
  (.ok (), st)

/-- `FlatNetworkService._on_set_network_host`: writes the static flat topology
parameters (injected, kind, network, netmask, bridge, gateway, broadcast, dns)
into the ledger's network record; no driver interaction. -/
def _on_set_network_host (st : St) (network_id : Nat) : Except Err Unit × St :=
  let net : FlatNetUpdate :=
    { injected := true,
      kind := st.flags.network_type,
      network_str := st.flags.flat_network_network,
      netmask := st.flags.flat_network_netmask,
      bridge := st.flags.flat_network_bridge,
      gateway := st.flags.flat_network_gateway,
      broadcast := st.flags.flat_network_broadcast,
      dns := st.flags.flat_network_dns }
  (.ok (), network_update st network_id net)

/-- Flat service `set_network_host`: the inherited base method dispatching to
the flat hook. -/
def set_network_host (st : St) (project_id : String) : Except Err String × St :=
  BaseNetworkService.set_network_host _on_set_network_host st project_id

end FlatNetworkService

namespace VlanNetworkService

/-- `VlanNetworkService.setup_fixed_ip`: a VPN-endpoint instance gets the
network's reserved VPN address and `ensure_vlan_forward`; anything else
delegates to the base allocation path. -/
def setup_fixed_ip (st : St) (project_id : String) (instance_id : Nat) :
    Except Err String × St :=
  match project_get_network st project_id with
  | none => (.error .notFound, st)
  | some network_ref =>
    if instance_is_vpn st instance_id then
      match network_get_vpn_ip_address st network_ref.id with
      | none => (.error .notFound, st)
      | some address =>
        let st1 := fixed_ip_instance_associate st address instance_id
        match driverCall st1 (.ensure_vlan_forward network_ref.vpn_public_ip_str
            network_ref.vpn_public_port network_ref.vpn_private_ip_str) with
        | (.error e, st2) => (.error e, st2)
        | (.ok _, st2) => (.ok address, st2)
    else
      BaseNetworkService.allocate_fixed_ip st project_id instance_id

/-- `VlanNetworkService.release_fixed_ip` (bridge callback): clears the leased
flag, then clears the instance association. -/
def release_fixed_ip (st : St) (address : String) : St :=
  fixed_ip_instance_disassociate (fixed_ip_release st address) address

/-- `VlanNetworkService.deallocate_fixed_ip` (override): a leased address is
only deallocated from the pool (the instance id is kept until release);
otherwise `release_fixed_ip` runs immediately. -/
def deallocate_fixed_ip (st : St) (address : String) : Except Err Unit × St :=
  match fixed_ip_get_by_address st address with
  | none => (.error .notFound, st)
  | some fixed_ip_ref =>
    if fixed_ip_ref.leased then (.ok (), fixed_ip_deallocate st address)
    else (.ok (), release_fixed_ip st address)

/-- `VlanNetworkService.lease_fixed_ip` (bridge callback): sets the leased flag. -/
def lease_fixed_ip (st : St) (address : String) : St :=
  fixed_ip_lease st address

/-- `VlanNetworkService._on_set_network_host`: reads the network record and
asks the driver to ensure the VLAN bridge exists. -/
def _on_set_network_host (st : St) (network_id : Nat) : Except Err Unit × St :=
  match network_get st network_id with
  | none => (.error .notFound, st)
  | some network_ref => driverCall st (.ensure_vlan_bridge network_ref.vlan network_ref.bridge)

/-- Vlan service `set_network_host`: the inherited base method dispatching to
the vlan hook. -/
def set_network_host (st : St) (project_id : String) : Except Err String × St :=
  BaseNetworkService.set_network_host _on_set_network_host st project_id

/-- `VlanNetworkService.setup_compute_network`: ensures the matching VLAN
bridge exists on a compute host. -/
def setup_compute_network (st : St) (network : NetworkRec) : Except Err Unit × St :=
  driverCall st (.ensure_vlan_bridge network.vlan network.bridge)

end VlanNetworkService

/-! Derived observers of the state, used to phrase the properties. -/

/-- Free (unallocated) addresses of a network's pool, in ledger order. -/
def freeAddrs (st : St) (network_id : Nat) : List String :=
  (st.fixed_ips.filter (isFreeIn network_id)).map Prod.fst

/-- The instance currently associated with a fixed address, if any. -/
def instanceOf (st : St) (address : String) : Option Nat :=
  match fixed_ip_get_by_address st address with
  | some r => r.instance_id
  | none => none

/-- The fixed address currently associated with a floating address, if any. -/
def floatingFixedOf (st : St) (address : String) : Option String :=
  match assocFind address st.floating_ips with
  | some r => r.fixed_address
  | none => none

/-- Whether a floating address is currently allocated. -/
def floatingAllocated (st : St) (address : String) : Bool :=
  match assocFind address st.floating_ips with
  | some r => r.allocated
  | none => false

/-- The host recorded for a network (`some h` when the record exists and
carries host `h`). -/
def hostOf (st : St) (network_id : Nat) : Option (Option String) :=
  (network_get st network_id).map NetworkRec.host

/-- Repeated fixed-ip allocation: one `allocate_fixed_ip` call per requested
instance id, threading the state. -/
def allocate_fixed_ip_run (project_id : String) : St → List Nat → List (Except Err String) × St
  | st, [] => ([], st)
  | st, i :: rest =>
    let r := BaseNetworkService.allocate_fixed_ip st project_id i
    let rs := allocate_fixed_ip_run project_id r.2 rest
    (r.1 :: rs.1, rs.2)

/-! Helper lemmas about the association-list primitives. -/

theorem assocFind_assocUpdate_self {α β : Type} [DecidableEq α] (a : α) (f : β → β)
    (l : List (α × β)) :
    assocFind a (assocUpdate a f l) = (assocFind a l).map f := by
  induction l with
  | nil => rfl
  | cons p rest ih =>
    by_cases h : p.1 = a
    · simp [assocUpdate, assocFind, h]
    · simp only [assocUpdate, List.map_cons, if_neg h, assocFind]
      simpa [assocUpdate] using ih

theorem assocFind_assocUpdate_ne {α β : Type} [DecidableEq α] {a b : α} (f : β → β)
    (l : List (α × β)) (h : b ≠ a) :
    assocFind b (assocUpdate a f l) = assocFind b l := by
  induction l with
  | nil => rfl
  | cons p rest ih =>
    by_cases hpa : p.1 = a
    · have hpb : ¬ p.1 = b := fun e => h (by rw [← e, hpa])
      simp only [assocUpdate, List.map_cons, if_pos hpa, assocFind, if_neg hpb]
      simpa [assocUpdate] using ih
    · by_cases hpb : p.1 = b
      · simp [assocUpdate, assocFind, hpa, hpb, h]
      · simp only [assocUpdate, List.map_cons, if_neg hpa, assocFind, if_neg hpb]
        simpa [assocUpdate] using ih

theorem map_fst_assocUpdate {α β : Type} [DecidableEq α] (a : α) (f : β → β)
    (l : List (α × β)) :
    (assocUpdate a f l).map Prod.fst = l.map Prod.fst := by
  induction l with
  | nil => rfl
  | cons p rest ih =>
    by_cases h : p.1 = a <;>
      simp only [assocUpdate, List.map_cons, if_pos, if_neg, h] <;>
      simpa [assocUpdate] using ih

theorem find?_map_update_id (l : List NetworkRec) (network_id : Nat)
    (f : NetworkRec → NetworkRec) (hid : ∀ n, (f n).id = n.id) :
    (l.map (fun n => if n.id == network_id then f n else n)).find?
        (fun n => n.id == network_id) =
      (l.find? (fun n => n.id == network_id)).map f := by
  induction l with
  | nil => rfl
  | cons n rest ih =>
    by_cases h : n.id = network_id
    · have hb : (n.id == network_id) = true := by simpa using h
      have hbf : ((f n).id == network_id) = true := by rw [hid n]; exact hb
      rw [List.map_cons, if_pos hb, List.find?_cons, List.find?_cons, hb, hbf]
      rfl
    · have hb : (n.id == network_id) = false := by simpa using h
      have hb' : ¬ ((n.id == network_id) = true) := by simp [hb]
      rw [List.map_cons, if_neg hb', List.find?_cons, List.find?_cons, hb]
      exact ih

theorem network_get_network_update (st : St) (network_id : Nat) (u : FlatNetUpdate) :
    network_get (network_update st network_id u) network_id =
      (network_get st network_id).map (fun n =>
        { n with injected := u.injected, kind := u.kind, network_str := u.network_str,
                 netmask := u.netmask, bridge := u.bridge, gateway := u.gateway,
                 broadcast := u.broadcast, dns := u.dns }) := by
  simp only [network_get, network_update, logEvent]
  exact find?_map_update_id st.networks network_id _ (fun n => rfl)

theorem network_get_network_set_host (st : St) (network_id : Nat) (host : String)
    (h : st.set_host_ok = true) :
    network_get (network_set_host st network_id host).2 network_id =
      (network_get st network_id).map (fun n => { n with host := some host }) := by
  simp only [network_get, network_set_host, h, if_true, logEvent]
  exact find?_map_update_id st.networks network_id _ (fun n => rfl)

theorem network_get_of_project_get_network (st : St) (project_id : String)
    (network_ref : NetworkRec)
    (h : project_get_network st project_id = some network_ref) :
    network_get st network_ref.id = some network_ref := by
  unfold project_get_network at h
  cases hp : assocFind project_id st.projects with
  | none => rw [hp] at h; cases h
  | some nid =>
    rw [hp] at h; simp only [] at h
    have hid := List.find?_some h
    have hnid : network_ref.id = nid := by simpa using hid
    unfold network_get
    rw [hnid]
    exact h

/-! Concrete states used to instantiate the theorems. -/

/-- A small concrete configuration (source defaults plus a node name). -/
def flags0 : Flags :=
  { network_type := "flat", flat_network_bridge := "br100",
    flat_network_network := "192.168.0.0", flat_network_netmask := "255.255.255.0",
    flat_network_gateway := "192.168.0.1", flat_network_broadcast := "192.168.0.255",
    flat_network_dns := "8.8.4.4", node_name := "host1" }

/-- A concrete vlan network record. -/
def net1 : NetworkRec :=
  { id := 1, kind := "vlan", host := none, injected := false, vlan := 105,
    bridge := "br105", network_str := "10.0.0.0", netmask := "255.255.255.0",
    gateway := "10.0.0.1", broadcast := "10.0.0.255", dns := "8.8.4.4",
    vpn_public_ip_str := "4.4.4.4", vpn_public_port := 1000,
    vpn_private_ip_str := "10.0.0.2" }

/-- A small ledger: one network for tenantB, two free fixed ips, one
associated floating ip, one VPN instance, everything reachable. -/
def baseSt : St :=
  { flags := flags0, networks := [net1], projects := [("tenantB", 1)],
    fixed_ips :=
      [("10.0.0.3", { network_id := 1, instance_id := none, leased := false, allocated := false }),
       ("10.0.0.4", { network_id := 1, instance_id := none, leased := false, allocated := false })],
    floating_ips :=
      [("4.4.4.10", { host := "host1", project_id := "tenantB",
                      fixed_address := some "10.0.0.3", allocated := true })],
    vpn_instances := [42], vpn_addresses := [(1, "10.0.0.2")],
    trace := [], driver_ok := fun _ => true, set_host_ok := true }

/-! C3 — the topology registry. -/

/-- C3: `type_to_class` substitutes the configured default for an unset
identifier and proceeds, maps `flat` to the Flat handler and `vlan` to the
Vlan handler, and fails with the unknown-topology error on any other
identifier instead of falling through to a default. -/
theorem type_to_class_total (flags : Flags) (s : String) :
    type_to_class flags "" = type_to_class flags flags.network_type ∧
    type_to_class flags "flat" = .ok .FlatNetworkService ∧
    type_to_class flags "vlan" = .ok .VlanNetworkService ∧
    (s ≠ "" → s ≠ "flat" → s ≠ "vlan" → type_to_class flags s = .error .notFound) := by
  refine ⟨?_, rfl, rfl, fun h1 h2 h3 => ?_⟩
  · by_cases h : flags.network_type = "" <;> simp [type_to_class, h]
  · simp [type_to_class, h1, h2, h3]

/-- Witness for C3 at a concrete configuration and the identifier "other". -/
theorem type_to_class_total_witness :
    "other" ≠ "" ∧ "other" ≠ "flat" ∧ "other" ≠ "vlan" ∧
    type_to_class flags0 "other" = .error .notFound := by
  refine ⟨by decide, by decide, by decide, ?_⟩
  exact (type_to_class_total flags0 "other").2.2.2 (by decide) (by decide) (by decide)

/-! C1 — VLAN two-phase fixed-ip deallocation. -/

/-- C1: for a fixed address present in the ledger, the VLAN override of
`deallocate_fixed_ip` is two-phase.  When the address is leased it only runs
the ledger's pool deallocation — the record keeps its instance association and
its leased flag, and the only ledger write issued is `fixed_ip_deallocate` (no
disassociation) — awaiting `release_fixed_ip`.  When it is not leased the full
release path runs at once: the leased flag is cleared and the instance
association is cleared. -/
theorem vlan_deallocate_fixed_ip_two_phase (st : St) (address : String) (ref : FixedIpRec)
    (href : fixed_ip_get_by_address st address = some ref) :
    (ref.leased = true →
      VlanNetworkService.deallocate_fixed_ip st address =
        (.ok (), fixed_ip_deallocate st address) ∧
      fixed_ip_get_by_address (fixed_ip_deallocate st address) address =
        some { ref with allocated := false } ∧
      (fixed_ip_deallocate st address).trace =
        st.trace ++ [.db (.fixed_ip_deallocate address)]) ∧
    (ref.leased = false →
      VlanNetworkService.deallocate_fixed_ip st address =
        (.ok (), VlanNetworkService.release_fixed_ip st address) ∧
      fixed_ip_get_by_address (VlanNetworkService.release_fixed_ip st address) address =
        some { ref with leased := false, instance_id := none } ∧
      (VlanNetworkService.release_fixed_ip st address).trace =
        st.trace ++ [.db (.fixed_ip_release address),
                     .db (.fixed_ip_instance_disassociate address)]) := by
  constructor
  · intro hl
    refine ⟨?_, ?_, ?_⟩
    · simp [VlanNetworkService.deallocate_fixed_ip, href, hl]
    · simp only [fixed_ip_get_by_address] at href
      simp [fixed_ip_deallocate, fixed_ip_get_by_address, logEvent,
        assocFind_assocUpdate_self, href]
    · simp [fixed_ip_deallocate, logEvent]
  · intro hl
    refine ⟨?_, ?_, ?_⟩
    · simp [VlanNetworkService.deallocate_fixed_ip, href, hl]
    · simp only [fixed_ip_get_by_address] at href
      simp [VlanNetworkService.release_fixed_ip, fixed_ip_release,
        fixed_ip_instance_disassociate, fixed_ip_get_by_address, logEvent,
        assocFind_assocUpdate_self, href]
    · simp [VlanNetworkService.release_fixed_ip, fixed_ip_release,
        fixed_ip_instance_disassociate, logEvent]

/-- A state whose one fixed ip is currently leased by instance 7. -/
def leasedSt : St :=
  { baseSt with fixed_ips :=
      [("10.0.0.3", { network_id := 1, instance_id := some 7, leased := true, allocated := true })] }

/-- Witness for C1: deallocating the leased address 10.0.0.3 keeps its
instance association and leased flag, clearing only the allocated flag. -/
theorem vlan_deallocate_fixed_ip_two_phase_witness :
    fixed_ip_get_by_address leasedSt "10.0.0.3" =
      some { network_id := 1, instance_id := some 7, leased := true, allocated := true } ∧
    VlanNetworkService.deallocate_fixed_ip leasedSt "10.0.0.3" =
      (.ok (), fixed_ip_deallocate leasedSt "10.0.0.3") ∧
    fixed_ip_get_by_address (fixed_ip_deallocate leasedSt "10.0.0.3") "10.0.0.3" =
      some { network_id := 1, instance_id := some 7, leased := true, allocated := false } := by
  have h := vlan_deallocate_fixed_ip_two_phase leasedSt "10.0.0.3"
    { network_id := 1, instance_id := some 7, leased := true, allocated := true } rfl
  exact ⟨rfl, (h.1 rfl).1, (h.1 rfl).2.1⟩

/-! C9 — floating-ip deallocation error handling. -/

/-- C9: `deallocate_floating_ip` fails with `AddressNotAllocated` on an
address that is not allocated (in particular one that was never allocated),
leaving the state untouched; on an allocated address it succeeds and releases
the address back to the pool. -/
theorem deallocate_floating_ip_spec (st : St) (address : String) :
    (floatingAllocated st address = false →
      BaseNetworkService.deallocate_floating_ip st address =
        (.error .addressNotAllocated, st)) ∧
    (floatingAllocated st address = true →
      (BaseNetworkService.deallocate_floating_ip st address).1 = .ok () ∧
      floatingAllocated (BaseNetworkService.deallocate_floating_ip st address).2 address
        = false) := by
  constructor
  · intro h
    unfold floatingAllocated at h
    cases hfind : assocFind address st.floating_ips with
    | none =>
      simp [BaseNetworkService.deallocate_floating_ip, floating_ip_deallocate, hfind]
    | some r =>
      rw [hfind] at h; simp only [] at h
      simp [BaseNetworkService.deallocate_floating_ip, floating_ip_deallocate, hfind, h]
  · intro h
    unfold floatingAllocated at h
    cases hfind : assocFind address st.floating_ips with
    | none => rw [hfind] at h; cases h
    | some r =>
      rw [hfind] at h; simp only [] at h
      constructor
      · simp [BaseNetworkService.deallocate_floating_ip, floating_ip_deallocate, hfind, h]
      · simp [BaseNetworkService.deallocate_floating_ip, floating_ip_deallocate, hfind, h,
          floatingAllocated, logEvent, assocFind_assocUpdate_self]

/-- Witness for C9: address 9.9.9.9 was never allocated and is refused;
address 4.4.4.10 is allocated and goes back to the pool. -/
theorem deallocate_floating_ip_spec_witness :
    floatingAllocated baseSt "9.9.9.9" = false ∧
    BaseNetworkService.deallocate_floating_ip baseSt "9.9.9.9" =
      (.error .addressNotAllocated, baseSt) ∧
    floatingAllocated baseSt "4.4.4.10" = true ∧
    (BaseNetworkService.deallocate_floating_ip baseSt "4.4.4.10").1 = .ok () ∧
    floatingAllocated (BaseNetworkService.deallocate_floating_ip baseSt "4.4.4.10").2
      "4.4.4.10" = false := by
  refine ⟨rfl, (deallocate_floating_ip_spec baseSt "9.9.9.9").1 rfl, rfl, ?_, ?_⟩
  · exact ((deallocate_floating_ip_spec baseSt "4.4.4.10").2 rfl).1
  · exact ((deallocate_floating_ip_spec baseSt "4.4.4.10").2 rfl).2

/-! C7 — the Flat host-assignment hook's exact effect. -/

/-- C7: the Flat host-assignment hook performs exactly one ledger update —
recording `injected = true` together with the static topology parameters
(bridge, network, netmask, gateway, broadcast, dns) from the flags — and no
driver command: the trace grows by that single ledger write only, and the
network record carries exactly those fields afterwards. -/
theorem flat_on_set_network_host_spec (st : St) (network_id : Nat) (net : NetworkRec)
    (hnet : network_get st network_id = some net) :
    (FlatNetworkService._on_set_network_host st network_id).1 = .ok () ∧
    ((FlatNetworkService._on_set_network_host st network_id).2).trace =
      st.trace ++ [.db (.network_update network_id
        { injected := true, kind := st.flags.network_type,
          network_str := st.flags.flat_network_network,
          netmask := st.flags.flat_network_netmask,
          bridge := st.flags.flat_network_bridge,
          gateway := st.flags.flat_network_gateway,
          broadcast := st.flags.flat_network_broadcast,
          dns := st.flags.flat_network_dns })] ∧
    network_get ((FlatNetworkService._on_set_network_host st network_id).2) network_id =
      some { net with
              injected := true, kind := st.flags.network_type,
              network_str := st.flags.flat_network_network,
              netmask := st.flags.flat_network_netmask,
              bridge := st.flags.flat_network_bridge,
              gateway := st.flags.flat_network_gateway,
              broadcast := st.flags.flat_network_broadcast,
              dns := st.flags.flat_network_dns } := by
  refine ⟨rfl, ?_, ?_⟩
  · simp [FlatNetworkService._on_set_network_host, network_update, logEvent]
  · show network_get (network_update st network_id _) network_id = _
    rw [network_get_network_update, hnet]
    rfl

/-- A concrete flat network record. -/
def netF : NetworkRec :=
  { id := 2, kind := "flat", host := none, injected := false, vlan := 0,
    bridge := "br0", network_str := "0.0.0.0", netmask := "0.0.0.0",
    gateway := "0.0.0.0", broadcast := "0.0.0.0", dns := "0.0.0.0",
    vpn_public_ip_str := "", vpn_public_port := 0, vpn_private_ip_str := "" }

/-- A state holding the flat network, owned by tenantA. -/
def flatSt : St := { baseSt with networks := [netF], projects := [("tenantA", 2)] }

/-- Witness for C7 at the concrete flat state: one ledger update carrying the
configured flat parameters and `injected = true`, no driver event. -/
theorem flat_on_set_network_host_spec_witness :
    ((FlatNetworkService._on_set_network_host flatSt 2).2).trace =
      [.db (.network_update 2
        { injected := true, kind := "flat", network_str := "192.168.0.0",
          netmask := "255.255.255.0", bridge := "br100", gateway := "192.168.0.1",
          broadcast := "192.168.0.255", dns := "8.8.4.4" })] ∧
    network_get ((FlatNetworkService._on_set_network_host flatSt 2).2) 2 =
      some { netF with
              injected := true, kind := "flat", network_str := "192.168.0.0",
              netmask := "255.255.255.0", bridge := "br100", gateway := "192.168.0.1",
              broadcast := "192.168.0.255", dns := "8.8.4.4" } := by
  have h := flat_on_set_network_host_spec flatSt 2 netF rfl
  exact ⟨h.2.1, h.2.2⟩

/-! C10 — the kind field written by the Flat hook follows the configured flag. -/

/-- C10: the `kind` the Flat host-assignment hook writes into the network
record is the configured default network-type flag, not the literal "flat";
hence with a configuration whose default is another identifier, assigning a
host to a flat network relabels its recorded topology kind. -/
theorem flat_on_set_network_host_kind (st : St) (network_id : Nat) (net : NetworkRec)
    (hnet : network_get st network_id = some net) :
    (network_get ((FlatNetworkService._on_set_network_host st network_id).2)
        network_id).map NetworkRec.kind = some st.flags.network_type ∧
    (st.flags.network_type ≠ "flat" →
      (network_get ((FlatNetworkService._on_set_network_host st network_id).2)
        network_id).map NetworkRec.kind ≠ some "flat") := by
  have hrec : network_get ((FlatNetworkService._on_set_network_host st network_id).2)
      network_id = some { net with
                           injected := true, kind := st.flags.network_type,
                           network_str := st.flags.flat_network_network,
                           netmask := st.flags.flat_network_netmask,
                           bridge := st.flags.flat_network_bridge,
                           gateway := st.flags.flat_network_gateway,
                           broadcast := st.flags.flat_network_broadcast,
                           dns := st.flags.flat_network_dns } := by
    show network_get (network_update st network_id _) network_id = _
    rw [network_get_network_update, hnet]
    rfl
  rw [hrec]
  exact ⟨rfl, fun h hc => h (by simpa using hc)⟩

/-- A state whose configured default network type is "vlan" while the stored
network is a flat one. -/
def relabelSt : St := { flatSt with flags := { flags0 with network_type := "vlan" } }

/-- Witness for C10: with default network type "vlan", the flat hook records
kind "vlan" on the flat network — not "flat". -/
theorem flat_on_set_network_host_kind_witness :
    (network_get ((FlatNetworkService._on_set_network_host relabelSt 2).2) 2).map
        NetworkRec.kind = some "vlan" ∧
    (network_get ((FlatNetworkService._on_set_network_host relabelSt 2).2) 2).map
        NetworkRec.kind ≠ some "flat" := by
  have h := flat_on_set_network_host_kind relabelSt 2 netF rfl
  exact ⟨h.1, h.2 (by decide)⟩

/-! C2 — floating-ip disassociation. -/

/-- C2 as stated is false on the code: `disassociate_floating_ip` does read
the previously bound fixed address from the ledger (here 10.0.0.3), but the
method returns `None` to its caller, not that address. -/
theorem disassociate_floating_ip_return_counterexample :
    floatingFixedOf baseSt "4.4.4.10" = some "10.0.0.3" ∧
    (BaseNetworkService.disassociate_floating_ip baseSt "4.4.4.10").1 = .ok none ∧
    (BaseNetworkService.disassociate_floating_ip baseSt "4.4.4.10").1 ≠
      .ok (some "10.0.0.3") := by
  refine ⟨rfl, rfl, fun hcontr => ?_⟩
  have h1 : (BaseNetworkService.disassociate_floating_ip baseSt "4.4.4.10").1 =
      .ok none := rfl
  rw [h1] at hcontr
  exact Option.noConfusion (Except.ok.inj hcontr)

/-- C2 amended: for an associated floating address, `disassociate_floating_ip`
clears the association in the ledger — the ledger call (not the method's
return value, which is `None`) yields the previously bound fixed address —
and then issues exactly two driver commands in order: unbind the floating
address, then remove the floating-to-fixed forwarding rule for that fixed
address. -/
theorem disassociate_floating_ip_spec (st : St) (floating_address fixed_address : String)
    (r : FloatingIpRec)
    (hr : assocFind floating_address st.floating_ips = some r)
    (hfix : r.fixed_address = some fixed_address)
    (hu : st.driver_ok (.unbind_floating_ip floating_address) = true)
    (hrm : st.driver_ok (.remove_floating_forward floating_address fixed_address) = true) :
    (BaseNetworkService.disassociate_floating_ip st floating_address).1 = .ok none ∧
    floatingFixedOf (BaseNetworkService.disassociate_floating_ip st floating_address).2
      floating_address = none ∧
    (BaseNetworkService.disassociate_floating_ip st floating_address).2.trace =
      st.trace ++ [.db (.floating_ip_disassociate floating_address),
                   .driver (.unbind_floating_ip floating_address),
                   .driver (.remove_floating_forward floating_address fixed_address)] := by
  refine ⟨?_, ?_, ?_⟩ <;>
    simp [BaseNetworkService.disassociate_floating_ip, floating_ip_disassociate, hr, hfix,
      driverCall, logEvent, hu, hrm, floatingFixedOf, assocFind_assocUpdate_self]

/-- Witness for the amended C2 at the concrete state: association cleared, the
two driver commands issued in order, `None` returned. -/
theorem disassociate_floating_ip_spec_witness :
    (BaseNetworkService.disassociate_floating_ip baseSt "4.4.4.10").1 = .ok none ∧
    floatingFixedOf (BaseNetworkService.disassociate_floating_ip baseSt "4.4.4.10").2
      "4.4.4.10" = none ∧
    (BaseNetworkService.disassociate_floating_ip baseSt "4.4.4.10").2.trace =
      [.db (.floating_ip_disassociate "4.4.4.10"),
       .driver (.unbind_floating_ip "4.4.4.10"),
       .driver (.remove_floating_forward "4.4.4.10" "10.0.0.3")] := by
  have h := disassociate_floating_ip_spec baseSt "4.4.4.10" "10.0.0.3"
    { host := "host1", project_id := "tenantB",
      fixed_address := some "10.0.0.3", allocated := true } rfl rfl rfl rfl
  exact ⟨h.1, h.2.1, h.2.2⟩

/-! C5 — floating-ip association ordering and no-rollback. -/

/-- C5: `associate_floating_ip` always performs the ledger association write
first — whatever the driver then does, the resulting floating-ip table is the
post-write table (no rollback) — and the trace grows by the ledger write, then
the bind command, then (only if bind succeeded) the forwarding command; the
call succeeds exactly when both driver commands succeed. -/
theorem associate_floating_ip_ordering (st : St) (floating_address fixed_address : String) :
    ((BaseNetworkService.associate_floating_ip st floating_address fixed_address).2).floating_ips =
      assocUpdate floating_address (fun r => { r with fixed_address := some fixed_address })
        st.floating_ips ∧
    ((BaseNetworkService.associate_floating_ip st floating_address fixed_address).2).trace =
      st.trace ++
        (.db (.floating_ip_fixed_ip_associate floating_address fixed_address) ::
         .driver (.bind_floating_ip floating_address) ::
         (if st.driver_ok (.bind_floating_ip floating_address) then
            [.driver (.ensure_floating_forward floating_address fixed_address)]
          else [])) ∧
    ((BaseNetworkService.associate_floating_ip st floating_address fixed_address).1 = .ok ()
      ↔ (st.driver_ok (.bind_floating_ip floating_address) = true ∧
         st.driver_ok (.ensure_floating_forward floating_address fixed_address) = true)) := by
  by_cases hb : st.driver_ok (.bind_floating_ip floating_address) <;>
    by_cases hf : st.driver_ok (.ensure_floating_forward floating_address fixed_address) <;>
    simp [BaseNetworkService.associate_floating_ip, floating_ip_fixed_ip_associate,
      driverCall, logEvent, hb, hf]

/-! C4 — VLAN VPN fixed-ip carve-out. -/

theorem filter_isFreeIn_assocUpdate (l : List (String × FixedIpRec)) (a : String)
    (f : FixedIpRec → FixedIpRec)
    (hf : ∀ r, (f r).network_id = r.network_id ∧ (f r).allocated = r.allocated)
    (nid : Nat) :
    ((assocUpdate a f l).filter (isFreeIn nid)).map Prod.fst =
      (l.filter (isFreeIn nid)).map Prod.fst := by
  induction l with
  | nil => rfl
  | cons p rest ih =>
    simp only [assocUpdate] at ih ⊢
    rw [List.map_cons, List.filter_cons, List.filter_cons]
    by_cases h : p.1 = a
    · have hfree : isFreeIn nid (if p.1 = a then (p.1, f p.2) else p) = isFreeIn nid p := by
        simp [h, isFreeIn, (hf p.2).1, (hf p.2).2]
      rw [hfree]
      cases hq : isFreeIn nid p
      · simpa using ih
      · simp [h, ih]
    · have hfree : (if p.1 = a then (p.1, f p.2) else p) = p := if_neg h
      rw [hfree]
      cases hq : isFreeIn nid p
      · simpa using ih
      · simp [ih]

/-- C4: for a VPN-endpoint instance, `setup_fixed_ip` returns the network's
reserved VPN address from the ledger, records the instance association for
exactly that address, issues the `ensure_vlan_forward` driver command (from
the network's public ip and port to its private ip), and never touches the
dynamic pool — the free-address lists of all networks are unchanged and no
pool-allocation ledger write appears in the trace.  For a non-VPN instance the
operation equals the base fixed-ip allocation path. -/
theorem vlan_setup_fixed_ip_spec (st : St) (project_id : String) (instance_id : Nat)
    (network_ref : NetworkRec) (address : String)
    (hnet : project_get_network st project_id = some network_ref) :
    (instance_is_vpn st instance_id = true →
     network_get_vpn_ip_address st network_ref.id = some address →
     st.driver_ok (.ensure_vlan_forward network_ref.vpn_public_ip_str
        network_ref.vpn_public_port network_ref.vpn_private_ip_str) = true →
      (VlanNetworkService.setup_fixed_ip st project_id instance_id).1 = .ok address ∧
      ((VlanNetworkService.setup_fixed_ip st project_id instance_id).2).fixed_ips =
        assocUpdate address (fun r => { r with instance_id := some instance_id })
          st.fixed_ips ∧
      ((VlanNetworkService.setup_fixed_ip st project_id instance_id).2).trace =
        st.trace ++ [.db (.fixed_ip_instance_associate address instance_id),
          .driver (.ensure_vlan_forward network_ref.vpn_public_ip_str
            network_ref.vpn_public_port network_ref.vpn_private_ip_str)] ∧
      (∀ nid, freeAddrs ((VlanNetworkService.setup_fixed_ip st project_id instance_id).2)
        nid = freeAddrs st nid)) ∧
    (instance_is_vpn st instance_id = false →
      VlanNetworkService.setup_fixed_ip st project_id instance_id =
        BaseNetworkService.allocate_fixed_ip st project_id instance_id) := by
  constructor
  · intro hvpn haddr hdrv
    refine ⟨?_, ?_, ?_, ?_⟩
    · simp [VlanNetworkService.setup_fixed_ip, hnet, hvpn, haddr,
        fixed_ip_instance_associate, driverCall, logEvent, hdrv]
    · simp [VlanNetworkService.setup_fixed_ip, hnet, hvpn, haddr,
        fixed_ip_instance_associate, driverCall, logEvent, hdrv]
    · simp [VlanNetworkService.setup_fixed_ip, hnet, hvpn, haddr,
        fixed_ip_instance_associate, driverCall, logEvent, hdrv]
    · intro nid
      simp [VlanNetworkService.setup_fixed_ip, hnet, hvpn, haddr,
        fixed_ip_instance_associate, driverCall, logEvent, hdrv, freeAddrs]
      exact filter_isFreeIn_assocUpdate st.fixed_ips address
        (fun r => { r with instance_id := some instance_id }) (fun r => ⟨rfl, rfl⟩) nid
  · intro hvpn
    simp [VlanNetworkService.setup_fixed_ip, hnet, hvpn]

/-- Witness for C4 at the concrete state: instance 42 is a VPN endpoint of
tenantB's network and receives the reserved VPN address 10.0.0.2 with the
forwarding command, leaving the pool untouched. -/
theorem vlan_setup_fixed_ip_spec_witness :
    (VlanNetworkService.setup_fixed_ip baseSt "tenantB" 42).1 = .ok "10.0.0.2" ∧
    ((VlanNetworkService.setup_fixed_ip baseSt "tenantB" 42).2).trace =
      [.db (.fixed_ip_instance_associate "10.0.0.2" 42),
       .driver (.ensure_vlan_forward "4.4.4.4" 1000 "10.0.0.2")] ∧
    (∀ nid, freeAddrs ((VlanNetworkService.setup_fixed_ip baseSt "tenantB" 42).2) nid =
      freeAddrs baseSt nid) := by
  have h := (vlan_setup_fixed_ip_spec baseSt "tenantB" 42 net1 "10.0.0.2" rfl).1
    rfl rfl rfl
  exact ⟨h.1, h.2.2.1, h.2.2.2⟩

/-! C6 — host assignment: ledger update before hook, no rollback. -/

theorem vlan_hook_networks (s : St) (n : Nat) :
    ((VlanNetworkService._on_set_network_host s n).2).networks = s.networks := by
  unfold VlanNetworkService._on_set_network_host
  cases h : network_get s n with
  | none => rfl
  | some network_ref => simp [driverCall, logEvent]

theorem vlan_hook_hostOf (s : St) (n m : Nat) :
    hostOf ((VlanNetworkService._on_set_network_host s n).2) m = hostOf s m := by
  unfold hostOf network_get
  rw [vlan_hook_networks]

theorem vlan_hook_trace_extends (s : St) (n : Nat) :
    ∃ tl, ((VlanNetworkService._on_set_network_host s n).2).trace = s.trace ++ tl := by
  unfold VlanNetworkService._on_set_network_host
  cases h : network_get s n with
  | none => exact ⟨[], by simp⟩
  | some network_ref =>
    exact ⟨[.driver (.ensure_vlan_bridge network_ref.vlan network_ref.bridge)],
      by simp [driverCall, logEvent]⟩

theorem find?_map_host (l : List NetworkRec) (m : Nat) (g : NetworkRec → NetworkRec)
    (hid : ∀ x, (g x).id = x.id) (hhost : ∀ x, (g x).host = x.host) :
    ((l.map g).find? (fun x => x.id == m)).map NetworkRec.host =
      (l.find? (fun x => x.id == m)).map NetworkRec.host := by
  induction l with
  | nil => rfl
  | cons x rest ih =>
    cases hb : (x.id == m) with
    | true =>
      have h2 : ((g x).id == m) = true := by rw [hid]; exact hb
      rw [List.map_cons, List.find?_cons, List.find?_cons, hb, h2]
      simp [hhost]
    | false =>
      have h2 : ((g x).id == m) = false := by rw [hid]; exact hb
      rw [List.map_cons, List.find?_cons, List.find?_cons, hb, h2]
      exact ih

theorem flat_hook_hostOf (s : St) (n m : Nat) :
    hostOf ((FlatNetworkService._on_set_network_host s n).2) m = hostOf s m := by
  unfold hostOf network_get FlatNetworkService._on_set_network_host network_update logEvent
  exact find?_map_host s.networks m _ (fun x => by dsimp only; split <;> rfl)
    (fun x => by dsimp only; split <;> rfl)

/-- C6: `set_network_host` issues the ledger's atomic set-host update before
the topology hook.  If the ledger update fails, nothing happens — the call
returns the failure on the unchanged state, so the hook never ran.  If the
ledger update succeeds, the set-host write heads everything the call appends
to the trace, and — for any hook that does not touch the host field — the
calling host stays recorded as owner even if the hook then fails. -/
theorem set_network_host_ordering (hook : St → Nat → Except Err Unit × St) (st : St)
    (project_id : String) (network_ref : NetworkRec)
    (hnet : project_get_network st project_id = some network_ref)
    (hhost : ∀ s n, hostOf ((hook s n).2) network_ref.id = hostOf s network_ref.id)
    (htr : ∀ s n, ∃ tl, ((hook s n).2).trace = s.trace ++ tl) :
    (st.set_host_ok = false →
      BaseNetworkService.set_network_host hook st project_id =
        (.error .ledgerFailure, st)) ∧
    (st.set_host_ok = true →
      (∃ tl, (BaseNetworkService.set_network_host hook st project_id).2.trace =
        st.trace ++ .db (.network_set_host network_ref.id st.flags.node_name) :: tl) ∧
      hostOf (BaseNetworkService.set_network_host hook st project_id).2 network_ref.id =
        some (some st.flags.node_name)) := by
  constructor
  · intro hfail
    simp [BaseNetworkService.set_network_host, hnet, network_set_host, hfail]
  · intro hok
    have hget := network_get_of_project_get_network st project_id network_ref hnet
    set st1 := (network_set_host st network_ref.id st.flags.node_name).2 with hst1
    have hres : BaseNetworkService.set_network_host hook st project_id =
        (match hook st1 network_ref.id with
         | (.error e, st2) => (.error e, st2)
         | (.ok _, st2) => (.ok st.flags.node_name, st2)) := by
      simp only [BaseNetworkService.set_network_host, hnet, hst1, network_set_host, hok,
        if_true]
    have hst1trace : st1.trace =
        st.trace ++ [.db (.network_set_host network_ref.id st.flags.node_name)] := by
      simp [hst1, network_set_host, hok, logEvent]
    have hst1host : hostOf st1 network_ref.id = some (some st.flags.node_name) := by
      unfold hostOf
      rw [hst1, network_get_network_set_host st network_ref.id st.flags.node_name hok, hget]
      rfl
    constructor
    · obtain ⟨tl, htl⟩ := htr st1 network_ref.id
      cases hh : hook st1 network_ref.id with
      | mk r st2 =>
        cases r with
        | error e =>
          refine ⟨tl, ?_⟩
          rw [hres, hh]
          have : st2.trace = st1.trace ++ tl := by rw [← htl, hh]
          simp [this, hst1trace]
        | ok u =>
          refine ⟨tl, ?_⟩
          rw [hres, hh]
          have : st2.trace = st1.trace ++ tl := by rw [← htl, hh]
          simp [this, hst1trace]
    · cases hh : hook st1 network_ref.id with
      | mk r st2 =>
        have hkeep : hostOf st2 network_ref.id = hostOf st1 network_ref.id := by
          have := hhost st1 network_ref.id
          rw [hh] at this
          exact this
        cases r with
        | error e => rw [hres, hh]; simpa [hkeep] using hst1host
        | ok u => rw [hres, hh]; simpa [hkeep] using hst1host

/-- A state whose driver refuses every command. -/
def driverFailSt : St := { baseSt with driver_ok := fun c => false }

/-- Witness for C6: with a failing driver, the vlan service's host assignment
records host1 as owner in the ledger and then surfaces the hook's driver
failure without rolling the ownership back. -/
theorem set_network_host_ordering_witness :
    hostOf (VlanNetworkService.set_network_host driverFailSt "tenantB").2 1 =
      some (some "host1") ∧
    (VlanNetworkService.set_network_host driverFailSt "tenantB").1 =
      .error .driverFailure := by
  have h := set_network_host_ordering VlanNetworkService._on_set_network_host driverFailSt
    "tenantB" net1 rfl (fun s n => vlan_hook_hostOf s n net1.id)
    (fun s n => vlan_hook_trace_extends s n)
  exact ⟨(h.2 rfl).2, rfl⟩

/-! C8 — pool exhaustion: distinct addresses, then AddressSpaceExhausted. -/

theorem find?_eq_head?_filter {α : Type} (p : α → Bool) (l : List α) :
    l.find? p = (l.filter p).head? := by
  induction l with
  | nil => rfl
  | cons x rest ih =>
    rw [List.find?_cons, List.filter_cons]
    cases h : p x
    · simpa using ih
    · simp

theorem assocUpdate_not_mem {α β : Type} [DecidableEq α] (a : α) (f : β → β)
    (l : List (α × β)) (h : a ∉ l.map Prod.fst) : assocUpdate a f l = l := by
  induction l with
  | nil => rfl
  | cons p rest ih =>
    simp only [List.map_cons, List.mem_cons, not_or] at h
    have hne : ¬ p.1 = a := fun e => h.1 e.symm
    simp only [assocUpdate, List.map_cons, if_neg hne]
    have := ih h.2
    simp only [assocUpdate] at this
    rw [this]

theorem assocFind_of_mem_nodup {α β : Type} [DecidableEq α] (l : List (α × β))
    (x : α × β) (hnd : (l.map Prod.fst).Nodup) (hm : x ∈ l) :
    assocFind x.1 l = some x.2 := by
  induction l with
  | nil => cases hm
  | cons p rest ih =>
    simp only [List.map_cons, List.nodup_cons] at hnd
    rcases List.mem_cons.mp hm with he | hm'
    · subst he
      simp [assocFind]
    · have hx1 : x.1 ∈ rest.map Prod.fst := List.mem_map_of_mem Prod.fst hm'
      have hne : ¬ p.1 = x.1 := fun e => hnd.1 (e ▸ hx1)
      simp only [assocFind, if_neg hne]
      exact ih hnd.2 hm'

theorem filter_map_fst_alloc (nid : Nat) (l : List (String × FixedIpRec))
    (x : String × FixedIpRec)
    (hnd : (l.map Prod.fst).Nodup)
    (hf : l.find? (isFreeIn nid) = some x) :
    (l.filter (isFreeIn nid)).map Prod.fst =
      x.1 :: ((assocUpdate x.1 (fun r => { r with allocated := true }) l).filter
        (isFreeIn nid)).map Prod.fst := by
  induction l with
  | nil => cases hf
  | cons p rest ih =>
    rw [List.find?_cons] at hf
    simp only [List.map_cons, List.nodup_cons] at hnd
    obtain ⟨hp_notin, hnd'⟩ := hnd
    rw [List.filter_cons]
    cases hq : isFreeIn nid p
    · rw [hq] at hf
      have hxmem : x ∈ rest := List.mem_of_find?_eq_some hf
      have hx1 : x.1 ∈ rest.map Prod.fst := List.mem_map_of_mem Prod.fst hxmem
      have hpx : ¬ p.1 = x.1 := fun e => hp_notin (e ▸ hx1)
      have hupd : assocUpdate x.1 (fun r => { r with allocated := true }) (p :: rest) =
          p :: assocUpdate x.1 (fun r => { r with allocated := true }) rest := by
        simp [assocUpdate, hpx]
      rw [hupd, List.filter_cons]
      simp only [hq, Bool.false_eq_true, if_false]
      exact ih hnd' hf
    · rw [hq] at hf
      have hxp : x = p := (Option.some.inj hf).symm
      subst hxp
      have hupd_rest : assocUpdate x.1 (fun r => { r with allocated := true }) rest = rest :=
        assocUpdate_not_mem _ _ _ hp_notin
      have hupd : assocUpdate x.1 (fun r => { r with allocated := true }) (x :: rest) =
          (x.1, { x.2 with allocated := true }) :: rest := by
        simp [assocUpdate]
        have : (fun p => if p.1 = x.1 then (p.1, { p.2 with allocated := true }) else p) =
            fun p : String × FixedIpRec =>
              if p.1 = x.1 then (p.1, { p.2 with allocated := true }) else p := rfl
        simp only [assocUpdate] at hupd_rest
        exact hupd_rest
      rw [hupd, List.filter_cons]
      have hhead : isFreeIn nid (x.1, { x.2 with allocated := true }) = false := by
        simp [isFreeIn]
      simp [hhead]

theorem freeAddrs_nodup (st : St) (nid : Nat)
    (hnd : (st.fixed_ips.map Prod.fst).Nodup) : (freeAddrs st nid).Nodup :=
  hnd.sublist (List.Sublist.map Prod.fst (List.filter_sublist st.fixed_ips))

theorem project_get_network_congr (st1 st2 : St) (project_id : String)
    (hp : st1.projects = st2.projects) (hn : st1.networks = st2.networks) :
    project_get_network st1 project_id = project_get_network st2 project_id := by
  unfold project_get_network
  rw [hp, hn]

theorem allocate_fixed_ip_step (st : St) (project_id : String) (i : Nat)
    (network_ref : NetworkRec) (a : String) (rest : List String)
    (hnet : project_get_network st project_id = some network_ref)
    (hnd : (st.fixed_ips.map Prod.fst).Nodup)
    (hfree : freeAddrs st network_ref.id = a :: rest) :
    (BaseNetworkService.allocate_fixed_ip st project_id i).1 = .ok a ∧
    ((BaseNetworkService.allocate_fixed_ip st project_id i).2).projects = st.projects ∧
    ((BaseNetworkService.allocate_fixed_ip st project_id i).2).networks = st.networks ∧
    ((BaseNetworkService.allocate_fixed_ip st project_id i).2).fixed_ips.map Prod.fst =
      st.fixed_ips.map Prod.fst ∧
    freeAddrs ((BaseNetworkService.allocate_fixed_ip st project_id i).2) network_ref.id
      = rest ∧
    instanceOf ((BaseNetworkService.allocate_fixed_ip st project_id i).2) a = some i ∧
    (∀ b, ¬ b = a →
      assocFind b ((BaseNetworkService.allocate_fixed_ip st project_id i).2).fixed_ips =
        assocFind b st.fixed_ips) := by
  unfold freeAddrs at hfree
  cases hflt : st.fixed_ips.filter (isFreeIn network_ref.id) with
  | nil => rw [hflt] at hfree; cases hfree
  | cons y t =>
    rw [hflt, List.map_cons] at hfree
    injection hfree with hy1 ht
    have hfind : st.fixed_ips.find? (isFreeIn network_ref.id) = some y := by
      rw [find?_eq_head?_filter, hflt]; rfl
    have hymem : y ∈ st.fixed_ips := List.mem_of_find?_eq_some hfind
    have hyassoc : assocFind y.1 st.fixed_ips = some y.2 :=
      assocFind_of_mem_nodup _ _ hnd hymem
    have hrun : BaseNetworkService.allocate_fixed_ip st project_id i =
        (.ok y.1, fixed_ip_instance_associate
          (logEvent
            { st with fixed_ips :=
                assocUpdate y.1 (fun r => { r with allocated := true }) st.fixed_ips }
            (.db (.fixed_ip_allocate_address network_ref.id y.1))) y.1 i) := by
      simp [BaseNetworkService.allocate_fixed_ip, hnet, fixed_ip_allocate_address, hfind]
    have halloc := filter_map_fst_alloc network_ref.id st.fixed_ips y hnd hfind
    have hfl : (st.fixed_ips.filter (isFreeIn network_ref.id)).map Prod.fst =
        a :: rest := by
      rw [hflt, List.map_cons, hy1, ht]
    rw [hfl] at halloc
    have htail : ((assocUpdate y.1 (fun r => { r with allocated := true })
        st.fixed_ips).filter (isFreeIn network_ref.id)).map Prod.fst = rest := by
      injection halloc with h1 h2
      exact h2.symm
    refine ⟨?_, ?_, ?_, ?_, ?_, ?_, ?_⟩
    · simp [hrun, hy1]
    · simp [hrun, fixed_ip_instance_associate, logEvent]
    · simp [hrun, fixed_ip_instance_associate, logEvent]
    · simp [hrun, fixed_ip_instance_associate, logEvent, map_fst_assocUpdate]
    · simp only [hrun, fixed_ip_instance_associate, logEvent, freeAddrs]
      have h1 := filter_isFreeIn_assocUpdate
        (assocUpdate y.1 (fun r => { r with allocated := true }) st.fixed_ips) y.1
        (fun r => { r with instance_id := some i }) (fun r => ⟨rfl, rfl⟩) network_ref.id
      rw [h1]
      exact htail
    · simp only [hrun, instanceOf, fixed_ip_get_by_address, fixed_ip_instance_associate,
        logEvent]
      rw [← hy1, assocFind_assocUpdate_self, assocFind_assocUpdate_self, hyassoc]
      rfl
    · intro b hb
      have hbne : b ≠ y.1 := fun e => hb (e.trans hy1)
      simp only [hrun, fixed_ip_instance_associate, logEvent]
      rw [assocFind_assocUpdate_ne _ _ hbne, assocFind_assocUpdate_ne _ _ hbne]

theorem allocate_fixed_ip_run_spec (project_id : String) (network_ref : NetworkRec) :
    ∀ (addrs : List String) (ids : List Nat) (st : St),
      project_get_network st project_id = some network_ref →
      (st.fixed_ips.map Prod.fst).Nodup →
      freeAddrs st network_ref.id = addrs →
      ids.length = addrs.length →
      (allocate_fixed_ip_run project_id st ids).1 = addrs.map Except.ok ∧
      ((allocate_fixed_ip_run project_id st ids).2).projects = st.projects ∧
      ((allocate_fixed_ip_run project_id st ids).2).networks = st.networks ∧
      ((allocate_fixed_ip_run project_id st ids).2).fixed_ips.map Prod.fst =
        st.fixed_ips.map Prod.fst ∧
      freeAddrs ((allocate_fixed_ip_run project_id st ids).2) network_ref.id = [] ∧
      (∀ q ∈ addrs.zip ids,
        instanceOf ((allocate_fixed_ip_run project_id st ids).2) q.1 = some q.2) ∧
      (∀ b, b ∉ addrs →
        assocFind b ((allocate_fixed_ip_run project_id st ids).2).fixed_ips =
          assocFind b st.fixed_ips) := by
  intro addrs
  induction addrs with
  | nil =>
    intro ids st hnet hnd hfree hlen
    have hids : ids = [] := List.length_eq_zero.mp (by simpa using hlen)
    subst hids
    simp [allocate_fixed_ip_run, hfree]
  | cons a rest ih =>
    intro ids st hnet hnd hfree hlen
    cases ids with
    | nil => simp at hlen
    | cons i irest =>
      have step := allocate_fixed_ip_step st project_id i network_ref a rest hnet hnd hfree
      obtain ⟨h1, hp, hn, hk, hfree1, hinst, hpres⟩ := step
      have hlen1 : irest.length = rest.length := by simpa using hlen
      have hnet1 : project_get_network
          ((BaseNetworkService.allocate_fixed_ip st project_id i).2) project_id =
          some network_ref := by
        rw [project_get_network_congr _ st project_id hp hn]
        exact hnet
      have hnd1 : (((BaseNetworkService.allocate_fixed_ip st project_id i).2).fixed_ips.map
          Prod.fst).Nodup := by rw [hk]; exact hnd
      have run := ih irest ((BaseNetworkService.allocate_fixed_ip st project_id i).2)
        hnet1 hnd1 hfree1 hlen1
      obtain ⟨r1, rp, rn, rk, rfree, rinst, rpres⟩ := run
      have hand : a ∉ rest := by
        have hndfree : (a :: rest).Nodup := by
          rw [← hfree]
          exact freeAddrs_nodup st network_ref.id hnd
        exact (List.nodup_cons.mp hndfree).1
      refine ⟨?_, ?_, ?_, ?_, ?_, ?_, ?_⟩
      · simp only [allocate_fixed_ip_run, List.map_cons]
        rw [← h1]
        exact congrArg (fun z => _ :: z) r1
      · simp only [allocate_fixed_ip_run]
        rw [rp, hp]
      · simp only [allocate_fixed_ip_run]
        rw [rn, hn]
      · simp only [allocate_fixed_ip_run]
        rw [rk, hk]
      · simp only [allocate_fixed_ip_run]
        exact rfree
      · intro q hq
        simp only [allocate_fixed_ip_run]
        rcases List.mem_cons.mp hq with he | hm
        · subst he
          have hne := rpres a hand
          simp only [instanceOf, fixed_ip_get_by_address] at hinst ⊢
          rw [hne]
          exact hinst
        · exact rinst q hm
      · intro b hb
        simp only [List.mem_cons, not_or] at hb
        simp only [allocate_fixed_ip_run]
        rw [rpres b hb.2, hpres b hb.1]

/-- C8: with a network whose pool holds the free addresses `addrs` (N of
them), N allocation calls return exactly those N pairwise-distinct addresses,
each recorded as associated with its requesting instance, and the (N+1)th call
fails with `AddressSpaceExhausted`, returning no address and leaving the state
unchanged. -/
theorem allocate_fixed_ip_exhaustion (st : St) (project_id : String)
    (network_ref : NetworkRec) (addrs : List String) (ids : List Nat) (j : Nat)
    (hnet : project_get_network st project_id = some network_ref)
    (hnd : (st.fixed_ips.map Prod.fst).Nodup)
    (hfree : freeAddrs st network_ref.id = addrs)
    (hlen : ids.length = addrs.length) :
    addrs.Nodup ∧
    (allocate_fixed_ip_run project_id st ids).1 = addrs.map Except.ok ∧
    (∀ q ∈ addrs.zip ids,
      instanceOf ((allocate_fixed_ip_run project_id st ids).2) q.1 = some q.2) ∧
    BaseNetworkService.allocate_fixed_ip ((allocate_fixed_ip_run project_id st ids).2)
      project_id j =
      (.error .addressSpaceExhausted, (allocate_fixed_ip_run project_id st ids).2) := by
  have run := allocate_fixed_ip_run_spec project_id network_ref addrs ids st hnet hnd
    hfree hlen
  obtain ⟨r1, rp, rn, rk, rfree, rinst, rpres⟩ := run
  have hndaddrs : addrs.Nodup := by
    rw [← hfree]; exact freeAddrs_nodup st network_ref.id hnd
  refine ⟨hndaddrs, r1, rinst, ?_⟩
  have hnetf : project_get_network ((allocate_fixed_ip_run project_id st ids).2)
      project_id = some network_ref := by
    rw [project_get_network_congr _ st project_id rp rn]
    exact hnet
  have hfindnone : ((allocate_fixed_ip_run project_id st ids).2).fixed_ips.find?
      (isFreeIn network_ref.id) = none := by
    rw [find?_eq_head?_filter]
    unfold freeAddrs at rfree
    have : ((allocate_fixed_ip_run project_id st ids).2).fixed_ips.filter
        (isFreeIn network_ref.id) = [] := by
      have := List.map_eq_nil.mp rfree
      exact this
    rw [this]
    rfl
  simp [BaseNetworkService.allocate_fixed_ip, hnetf, fixed_ip_allocate_address, hfindnone]

/-- Witness for C8 at the concrete state: the two free addresses come out in
order for instances 7 and 8, both associations are recorded, and the third
call fails with `AddressSpaceExhausted`. -/
theorem allocate_fixed_ip_exhaustion_witness :
    (allocate_fixed_ip_run "tenantB" baseSt [7, 8]).1 =
      [.ok "10.0.0.3", .ok "10.0.0.4"] ∧
    instanceOf ((allocate_fixed_ip_run "tenantB" baseSt [7, 8]).2) "10.0.0.3" = some 7 ∧
    instanceOf ((allocate_fixed_ip_run "tenantB" baseSt [7, 8]).2) "10.0.0.4" = some 8 ∧
    (BaseNetworkService.allocate_fixed_ip ((allocate_fixed_ip_run "tenantB" baseSt [7, 8]).2)
      "tenantB" 9).1 = .error .addressSpaceExhausted := by
  have h := allocate_fixed_ip_exhaustion baseSt "tenantB" net1 ["10.0.0.3", "10.0.0.4"]
    [7, 8] 9 rfl (by decide) rfl rfl
  refine ⟨h.2.1, ?_, ?_, by rw [h.2.2.2]⟩
  · exact h.2.2.1 ("10.0.0.3", 7) (by decide)
  · exact h.2.2.1 ("10.0.0.4", 8) (by decide)

end Nova
